import Mathlib

/-!
Verification of the JSON-RPC WebSocket client runtime
(src/custom/services/rpc/service.ts and src/custom/services/rpc/types.ts).

The definitions below are a shallow embedding of the service: JS numbers that
take part in arithmetic are modelled as rationals, JS Maps as association
lists, optional / possibly-undefined fields as Option, and the event-driven
control flow as explicit step functions on small state records. Line numbers
in doc comments refer to the service source file.
-/

namespace ListenifyRPC

/-- Connection states (types.ts, ConnectionState). -/
inductive ConnectionState where
  | CONNECTING
  | CONNECTED
  | DISCONNECTING
  | DISCONNECTED
  | RECONNECTING
deriving DecidableEq, Repr

/-- Connection options (types.ts, WebSocketOptions). The optional token and
debug fields default to the empty string and false as in the service. -/
structure WebSocketOptions where
  url : String
  token : String
  autoReconnect : Bool
  reconnectionAttempts : Nat
  reconnectionDelay : ℚ
  reconnectionDelayMax : ℚ
  timeout : ℚ
  pingInterval : ℚ
  debug : Bool
deriving DecidableEq, Repr

/-- DEFAULT_OPTIONS (service lines 15-25). -/
def DEFAULT_OPTIONS : WebSocketOptions :=
  { url := ""
    token := ""
    debug := false
    timeout := 5000
    pingInterval := 1000
    autoReconnect := true
    reconnectionDelay := 1000
    reconnectionAttempts := 6
    reconnectionDelayMax := 30000 }

/-- JSON values, as far as this model needs them (payloads carried by
requests, responses and notifications). -/
inductive Json where
  | null
  | bool (b : Bool)
  | num (n : Int)
  | str (s : String)
deriving DecidableEq, Repr

/-- JSON-RPC error objects (types.ts, JSONRPCError). -/
structure RpcError where
  code : Int
  message : String
  data : Option Json := none
deriving DecidableEq, Repr

/-- Correlation ids are strings or numbers (the Map key type of
pendingRequests at service lines 30-34). -/
inductive RpcId where
  | str (s : String)
  | num (n : Int)
deriving DecidableEq, Repr

/-- WS_PROTOCOL (service line 12): picked from the hosting page's scheme. -/
def wsProtocolFor (pageHttps : Bool) : String :=
  if pageHttps then "wss:" else "ws:"

/-- JS url.split(with colon)[0]: the text of the URL before its first colon,
or the whole URL when it has none. -/
def beforeFirstColon (url : String) : String :=
  String.mk (url.toList.takeWhile (fun c => c ≠ ':'))

/-- Constructor URL normalization (service lines 56-59): the URL is kept
as-is only when the segment before the first colon is literally one of the
strings "ws:" or "wss:"; otherwise the page protocol and two slashes are
prepended. -/
def normalizeUrl (wsProtocol url : String) : String :=
  if url ≠ "" ∧ ¬ (["ws:", "wss:"].contains (beforeFirstColon url)) then
    wsProtocol ++ "//" ++ url
  else url

/-- Token appending at connect() time (service lines 109-113): a non-empty
token is appended as a token query parameter, joined with an ampersand when
the URL already contains a question mark and with a question mark otherwise
(JS url.includes of the question-mark character). -/
def connectUrl (url tok : String) : String :=
  if tok ≠ "" then
    url ++ (if url.toList.contains '?' then "&" else "?") ++ "token=" ++ tok
  else url

/-- The slice of the service's mutable state that the close handler and the
reconnection policy read and write (service lines 28-46): the connection
state, the connected flag, the reconnecting flag, the attempt counter, and
the live options. -/
structure ReconnectState where
  connectionState : ConnectionState
  connected : Bool
  reconnecting : Bool
  reconnectAttempts : Nat
  options : WebSocketOptions
deriving DecidableEq, Repr

/-- Lifecycle events emitted through emitEvent by the close handler and the
reconnection policy. -/
inductive LifecycleEvent where
  | socketDisconnect (code : Nat)
  | socketReconnectAttempt (attempt : Nat) (delay : ℚ)
  | socketReconnectSuccess (attempt : Nat)
  | socketReconnectError
  | socketReconnectFailed
deriving DecidableEq, Repr

/-- Backoff delay for a given attempt number (service lines 497-500):
reconnectionDelay times 1.5 to the power attempt-1, capped at
reconnectionDelayMax. -/
def reconnectDelayFor (opts : WebSocketOptions) (attempt : Nat) : ℚ :=
  min (opts.reconnectionDelay * (3 / 2 : ℚ) ^ (attempt - 1)) opts.reconnectionDelayMax

/-- Result of one synchronous run of attemptReconnect or handleClose: the
updated state, the lifecycle events emitted during the run, and the delay of
the reconnect timer armed by the run, if any. -/
structure ReconnectOutcome where
  state : ReconnectState
  events : List LifecycleEvent
  scheduledDelay : Option ℚ
deriving DecidableEq, Repr

/-- attemptReconnect, service lines 476-527 (its synchronous part; the armed
timer's body is modelled by retryFailureStep). It returns at once when the
reconnecting flag is set; it gives up, moves to DISCONNECTED and emits
socket:reconnect_failed when the attempt counter has reached the configured
maximum; otherwise it increments the counter, moves to RECONNECTING, emits
socket:reconnect_attempt and arms the retry timer with the backoff delay. -/
def attemptReconnect (s : ReconnectState) : ReconnectOutcome :=
  if s.reconnecting then
    ⟨s, [], none⟩
  else if s.options.reconnectionAttempts ≤ s.reconnectAttempts then
    ⟨{ s with connectionState := .DISCONNECTED, reconnecting := false },
      [.socketReconnectFailed], none⟩
  else
    let a := s.reconnectAttempts + 1
    let d := reconnectDelayFor s.options a
    ⟨{ s with connectionState := .RECONNECTING, reconnecting := true, reconnectAttempts := a },
      [.socketReconnectAttempt a d], some d⟩

/-- The body of the armed reconnect timer in the case where the connect()
attempt fails (service lines 521-525): the error is recorded, a
socket:reconnect_error event is emitted, and attemptReconnect is entered
again. -/
def retryFailureStep (s : ReconnectState) : ReconnectOutcome :=
  let o := attemptReconnect s
  ⟨o.state, .socketReconnectError :: o.events, o.scheduledDelay⟩

/-- handleClose, service lines 423-454. A close while DISCONNECTING, or with
code 1000, is a clean closure: the state becomes DISCONNECTED and a
socket:disconnect event is emitted, with no reconnection. Any other close
clears the connected flag and either enters attemptReconnect (autoReconnect
on) or moves to DISCONNECTED and emits socket:disconnect (autoReconnect
off). -/
def handleClose (s : ReconnectState) (code : Nat) : ReconnectOutcome :=
  if s.connectionState = .DISCONNECTING ∨ code = 1000 then
    ⟨{ s with connectionState := .DISCONNECTED, connected := false },
      [.socketDisconnect code], none⟩
  else
    let s1 := { s with connected := false }
    if s1.options.autoReconnect then
      attemptReconnect s1
    else
      ⟨{ s1 with connectionState := .DISCONNECTED }, [.socketDisconnect code], none⟩

/-- Scenario driver: starting from the outcome of a close, fire the armed
reconnect timer with every connect() attempt failing, while any timer is
armed (fuel bounds the iteration). Returns how many retries were actually
performed (timers fired), the lifecycle events emitted by those retries, and
the final outcome. -/
def failingRetryRun : Nat → ReconnectOutcome → Nat × List LifecycleEvent × ReconnectOutcome
  | 0, o => (0, [], o)
  | fuel + 1, o =>
    match o.scheduledDelay with
    | none => (0, [], o)
    | some _ =>
      let o2 := retryFailureStep o.state
      let r := failingRetryRun fuel o2
      (r.1 + 1, o2.events ++ r.2.1, r.2.2)

/-- The ways the promise returned by call() can settle (call, service lines
271-306; handleResponse, lines 385-408). -/
inductive CallOutcome where
  | resolvedResult (r : Option Json)
  | rejectedRpcError (e : RpcError)
  | rejectedTimeout (msg : String)
  | rejectedSendError
deriving DecidableEq, Repr

/-- The per-call slice of the service state: the method name the call was
issued with, whether the pending-request table still holds the call's id,
and the settlement cell of the returned promise. A JS promise settles at
most once; resolve/reject invocations after the first are absorbed, which
settlePromise models. -/
structure CallState where
  method : String
  inTable : Bool
  promise : Option CallOutcome
deriving DecidableEq, Repr

/-- JS promise settlement: only the first resolve or reject takes effect. -/
def settlePromise (p : Option CallOutcome) (o : CallOutcome) : Option CallOutcome :=
  match p with
  | some x => some x
  | none => some o

/-- State of a call right after call() has stored its pending entry and armed
its timer (service lines 284-297). -/
def initialCall (method : String) : CallState :=
  { method := method, inTable := true, promise := none }

/-- The asynchronous events that can touch one pending call: a response
carrying its id arrives (with an error object or a result), its timeout timer
fires, or the sendRequest promise rejects. -/
inductive CallEvent where
  | responseArrives (err : Option RpcError) (r : Option Json)
  | timerFires
  | sendFails
deriving DecidableEq, Repr

/-- Effect of one event on one pending call. A response (handleResponse,
lines 385-408) acts only when the id is still tracked: it removes the entry,
then rejects with the error object when one is present and resolves with the
result otherwise. The timeout timer (lines 284-290) acts only when the id is
still tracked: it removes the entry and rejects with a timeout error naming
the method. A send failure (lines 300-304) unconditionally clears the timer,
removes the entry and rejects with the send error. -/
def callStep (s : CallState) : CallEvent → CallState
  | .responseArrives err r =>
    if s.inTable then
      { s with
        inTable := false
        promise := settlePromise s.promise
          (match err with
            | some e => .rejectedRpcError e
            | none => .resolvedResult r) }
    else s
  | .timerFires =>
    if s.inTable then
      { s with
        inTable := false
        promise := settlePromise s.promise
          (.rejectedTimeout ("Request timeout: " ++ s.method)) }
    else s
  | .sendFails =>
    { s with inTable := false, promise := settlePromise s.promise .rejectedSendError }

/-- Run a sequence of events against one call. -/
def runCall (s : CallState) : List CallEvent → CallState
  | [] => s
  | e :: es => runCall (callStep s e) es

/-- How many steps of the run actually settle the promise (the cell passes
from unsettled to settled). -/
def settleCount (s : CallState) : List CallEvent → Nat
  | [] => 0
  | e :: es =>
    (if s.promise.isNone ∧ (callStep s e).promise.isSome then 1 else 0) +
      settleCount (callStep s e) es

/-- The settlement each event produces when it finds the call still pending. -/
def eventOutcome (method : String) : CallEvent → CallOutcome
  | .responseArrives (some e) _ => .rejectedRpcError e
  | .responseArrives none r => .resolvedResult r
  | .timerFires => .rejectedTimeout ("Request timeout: " ++ method)
  | .sendFails => .rejectedSendError

/-- The timeout duration armed for a call (service line 283): the JS
expression timeout-or-else-options.timeout, where the or-else falls back on
any falsy argument, hence also on an explicit 0. -/
def timeoutDuration (arg : Option ℚ) (optTimeout : ℚ) : ℚ :=
  match arg with
  | some t => if t = 0 then optTimeout else t
  | none => optTimeout

/-- What sendRequest does with a frame, as decided at service lines 313-339. -/
inductive SendAction where
  | sendNow
  | deferViaConnect
  | rejectNotConnected
deriving DecidableEq, Repr

/-- The state sendRequest consults: the connected flag, whether the socket
exists and its readyState is OPEN, the connection state, and autoReconnect. -/
structure SendCtx where
  connected : Bool
  socketOpen : Bool
  connectionState : ConnectionState
  autoReconnect : Bool
deriving DecidableEq, Repr

/-- sendRequest's decision (service lines 313-339): transmit at once when the
connected flag is set and the socket is OPEN; otherwise defer through a
connect() attempt only when the connection state is DISCONNECTED and
autoReconnect is on; otherwise reject with a not-connected error. -/
def sendRequestAction (c : SendCtx) : SendAction :=
  if c.connected ∧ c.socketOpen then .sendNow
  else if c.connectionState = .DISCONNECTED ∧ c.autoReconnect then .deferViaConnect
  else .rejectNotConnected

/-- How the sendRequest promise settles. -/
inductive SendResult where
  | sent
  | rejectedNotConnected
  | rejectedConnectError
deriving DecidableEq, Repr

/-- Full outcome of sendRequest, given whether a deferred connect() attempt
succeeds: after a successful connect the retried send goes through on the
now-open socket (lines 329-332); a connect failure propagates as the
rejection reason (line 333). -/
def sendRequestOutcome (c : SendCtx) (connectSucceeds : Bool) : SendResult :=
  match sendRequestAction c with
  | .sendNow => .sent
  | .deferViaConnect => if connectSucceeds then .sent else .rejectedConnectError
  | .rejectNotConnected => .rejectedNotConnected

/-- Synchronous outcome of connect() (service lines 93-146): an immediate
resolve when already CONNECTING or CONNECTED, an immediate reject when the
URL is empty, a reject with the construction error when building the
WebSocket throws (the ctorThrows parameter), or the transition to CONNECTING
with a transport opened on the token-carrying URL. -/
inductive ConnectStart where
  | alreadyActive
  | noUrlError
  | ctorError
  | opened (wireUrl : String)
deriving DecidableEq, Repr

/-- The synchronous part of connect(), service lines 93-146. -/
def connectSync (ctorThrows : Bool) (st : ConnectionState) (opts : WebSocketOptions) :
    ConnectionState × ConnectStart :=
  if st = .CONNECTING ∨ st = .CONNECTED then (st, .alreadyActive)
  else if opts.url = "" then (st, .noUrlError)
  else if ctorThrows then (.DISCONNECTED, .ctorError)
  else (.CONNECTING, .opened (connectUrl opts.url opts.token))

/-- The constructor, service lines 52-64: the input is the merged options
(DEFAULT_OPTIONS overridden by the caller's fields, line 54); the URL is
normalized in place (lines 56-59); connect() runs exactly when autoReconnect
is set and the URL is non-empty (lines 62-63). Returns the connection state
after construction, the stored options, and the outcome of the connect()
call when one was made. -/
def constructorRun (ctorThrows pageHttps : Bool) (opts : WebSocketOptions) :
    ConnectionState × WebSocketOptions × Option ConnectStart :=
  let opts2 := { opts with url := normalizeUrl (wsProtocolFor pageHttps) opts.url }
  if opts2.autoReconnect ∧ opts2.url ≠ "" then
    let p := connectSync ctorThrows .DISCONNECTED opts2
    (p.1, opts2, some p.2)
  else
    (.DISCONNECTED, opts2, none)

/-- The argument a handler receives from emitEvent: handlers registered under
the event's own name get the data directly (service line 584), wildcard
handlers get the wrapped object with the type and data fields (line 596). -/
inductive HandlerArg where
  | direct (data : Option Json)
  | wrapped (ty : String) (data : Option Json)
deriving DecidableEq, Repr

/-- One forEach loop of emitEvent with its per-handler try/catch (service
lines 582-588 and 594-600): every handler in the list is invoked with the
given argument; a throw is caught and only logged, so the loop continues.
Handlers are modelled by ids and the throws function says which ones throw;
each invocation is recorded with the argument passed and whether it threw. -/
def runHandlersCaught (throws : Nat → Bool) (arg : HandlerArg) :
    List Nat → List (Nat × HandlerArg × Bool)
  | [] => []
  | h :: hs => (h, arg, throws h) :: runHandlersCaught throws arg hs

/-- emitEvent, service lines 578-602: first the handlers registered under the
event's own name, then the handlers registered under the wildcard name. -/
def emitEventRun (throws : Nat → Bool) (named wild : List Nat) (ty : String)
    (d : Option Json) : List (Nat × HandlerArg × Bool) :=
  runHandlersCaught throws (.direct d) named ++
    runHandlersCaught throws (.wrapped ty d) wild

/-- An inbound frame after JSON.parse (handleMessage, service line 369). The
id field distinguishes absence of the field (outer none) from a null id
(inner none). result and error are none when the fields are undefined. -/
structure InFrame where
  id : Option (Option RpcId)
  result : Option Json
  error : Option RpcError
  method : Option String
  params : Option Json
deriving DecidableEq, Repr

/-- Where handleMessage routes a parsed frame (service lines 372-375): to
handleResponse when an id field is present and result or error is not
undefined; else to handleNotification when a method field is present; else
nowhere. -/
inductive Routed where
  | toResponse
  | toNotification (m : String)
  | dropped
deriving DecidableEq, Repr

/-- The routing decision of handleMessage, service lines 372-375. -/
def routeFrame (f : InFrame) : Routed :=
  if f.id.isSome ∧ (f.result.isSome ∨ f.error.isSome) then .toResponse
  else
    match f.method with
    | some m => .toNotification m
    | none => .dropped

/-- handleResponse's effect on the pending-request table (service lines
385-408): a null id returns at once; an id not in the table is a no-op; a
tracked id is removed from the table and its call settled. Returns the new
table and the id of the call settled, if any. -/
def handleResponseTbl (tbl : List RpcId) (rid : Option RpcId) :
    List RpcId × Option RpcId :=
  match rid with
  | none => (tbl, none)
  | some i => if i ∈ tbl then (tbl.erase i, some i) else (tbl, none)

/-- The notification handed to the event dispatcher for a frame, when any
(handleNotification, service lines 414-417). -/
def notificationOf (f : InFrame) : Option (String × Option Json) :=
  match f.method with
  | some m => some (m, f.params)
  | none => none

/-- One run of handleMessage over the pending-request table (service lines
365-379 together with 385-408 and 414-417): returns the table afterwards,
the id of the pending call settled, if any, and the notification dispatched,
if any. -/
def handleMessageStep (tbl : List RpcId) (f : InFrame) :
    List RpcId × Option RpcId × Option (String × Option Json) :=
  match routeFrame f with
  | .toResponse =>
    let p := handleResponseTbl tbl (f.id.getD none)
    (p.1, p.2, none)
  | .toNotification m => (tbl, none, some (m, f.params))
  | .dropped => (tbl, none, none)

/-- The C2 scenario: an unexpected close with code 1006 on a connected
service configured with reconnectionAttempts 3 and the default delays. -/
def closeScenario : ReconnectOutcome :=
  handleClose
    ⟨.CONNECTED, true, false, 0, { DEFAULT_OPTIONS with reconnectionAttempts := 3 }⟩
    1006

/-- The C2 scenario continued: every armed retry timer fires with its
connect() attempt failing, until no timer is armed any more. -/
def closeScenarioRun : Nat × List LifecycleEvent × ReconnectOutcome :=
  failingRetryRun 10 closeScenario

/-- A merged options record as the constructor sees it when the application
passes a bare host name and keeps the defaults. -/
def exampleMergedOptions : WebSocketOptions :=
  { DEFAULT_OPTIONS with url := "example.com" }

/-- A server-push notification frame that also carries an id field but
neither result nor error, over a table tracking the id 3. -/
def strayFrame : InFrame :=
  { id := some (some (.str "7")), result := none, error := none,
    method := some "room:chat_message", params := some (Json.str "hi") }

end ListenifyRPC

namespace ListenifyRPC

/-! Helper lemmas about the per-call model. -/

theorem settlePromise_some (o x : CallOutcome) : settlePromise (some x) o = some x := rfl

theorem callStep_promise_some (s : CallState) (e : CallEvent) (o : CallOutcome)
    (h : s.promise = some o) : (callStep s e).promise = some o := by
  cases e with
  | responseArrives err r =>
    by_cases hi : s.inTable = true
    · simp [callStep, hi, h, settlePromise]
    · simp only [Bool.not_eq_true] at hi
      simp [callStep, hi, h]
  | timerFires =>
    by_cases hi : s.inTable = true
    · simp [callStep, hi, h, settlePromise]
    · simp only [Bool.not_eq_true] at hi
      simp [callStep, hi, h]
  | sendFails => simp [callStep, h, settlePromise]

theorem runCall_promise_some (es : List CallEvent) (s : CallState) (o : CallOutcome)
    (h : s.promise = some o) : (runCall s es).promise = some o := by
  induction es generalizing s with
  | nil => exact h
  | cons e es ih => exact ih _ (callStep_promise_some s e o h)

theorem callStep_inTable_false (s : CallState) (e : CallEvent)
    (h : s.inTable = false) : (callStep s e).inTable = false := by
  cases e with
  | responseArrives err r => simp [callStep, h]
  | timerFires => simp [callStep, h]
  | sendFails => simp [callStep]

theorem runCall_inTable_false (es : List CallEvent) (s : CallState)
    (h : s.inTable = false) : (runCall s es).inTable = false := by
  induction es generalizing s with
  | nil => exact h
  | cons e es ih => exact ih _ (callStep_inTable_false s e h)

theorem settleCount_of_some (es : List CallEvent) (s : CallState) (o : CallOutcome)
    (h : s.promise = some o) : settleCount s es = 0 := by
  induction es generalizing s with
  | nil => rfl
  | cons e es ih =>
    have h2 := callStep_promise_some s e o h
    simp [settleCount, h, ih _ h2]

theorem callStep_initialCall (m : String) (e : CallEvent) :
    callStep (initialCall m) e =
      { method := m, inTable := false, promise := some (eventOutcome m e) } := by
  cases e with
  | responseArrives err r => cases err <;> rfl
  | timerFires => rfl
  | sendFails => rfl

/-- C1: for every call, once at least one terminating event occurs (a matching
response, the call's timeout, or a send/connect failure), the returned
promise is settled with the outcome of the first such event — resolved with
a result, rejected with the response's RPC error, rejected with a timeout
error, or rejected with the send error; over the whole event sequence the
promise passes from unsettled to settled exactly once; and afterwards the
pending-request table no longer holds the call's entry. -/
theorem call_promise_settles_exactly_once (m : String) (e : CallEvent) (es : List CallEvent) :
    (runCall (initialCall m) (e :: es)).promise = some (eventOutcome m e) ∧
    settleCount (initialCall m) (e :: es) = 1 ∧
    (runCall (initialCall m) (e :: es)).inTable = false := by
  have hstep := callStep_initialCall m e
  refine ⟨?_, ?_, ?_⟩
  · show (runCall (callStep (initialCall m) e) es).promise = some (eventOutcome m e)
    rw [hstep]
    exact runCall_promise_some es _ _ rfl
  · show (if (initialCall m).promise.isNone ∧ (callStep (initialCall m) e).promise.isSome
        then 1 else 0) + settleCount (callStep (initialCall m) e) es = 1
    rw [hstep]
    have h0 : settleCount
        { method := m, inTable := false, promise := some (eventOutcome m e) } es = 0 :=
      settleCount_of_some es _ (eventOutcome m e) rfl
    simp [initialCall, h0]
  · show (runCall (callStep (initialCall m) e) es).inTable = false
    rw [hstep]
    exact runCall_inTable_false es _ rfl

/-- C4 counterexample: the claim reads the armed window as the timeout
argument whenever one is given, but the code computes it with a JS or-else
that falls back on any falsy argument: a call made with an explicit timeout
argument of 0 is armed with options.timeout (5000 under the defaults), not
with its own argument. -/
theorem timeout_window_zero_counterexample :
    timeoutDuration (some 0) DEFAULT_OPTIONS.timeout = 5000 ∧
    timeoutDuration (some 0) DEFAULT_OPTIONS.timeout ≠ 0 := by
  constructor <;> decide

/-- C4 (amended): the timeout window is the timeout argument if given and
nonzero, else options.timeout; when the timer fires while the call is still
pending, the pending entry is removed and the promise is rejected with a
timeout error naming the method; a response arriving for an id that the
table no longer holds is discarded without effect. -/
theorem timeout_cleanup_and_late_response (m : String) (t opt : ℚ)
    (err : Option RpcError) (r : Option Json) (s : CallState)
    (ht : t ≠ 0) (hs : s.inTable = false) :
    timeoutDuration (some t) opt = t ∧
    timeoutDuration none opt = opt ∧
    (callStep (initialCall m) .timerFires).inTable = false ∧
    (callStep (initialCall m) .timerFires).promise
        = some (.rejectedTimeout ("Request timeout: " ++ m)) ∧
    callStep s (.responseArrives err r) = s := by
  refine ⟨by simp [timeoutDuration, ht], rfl, rfl, rfl, ?_⟩
  simp [callStep, hs]

/-- Witness for the amended C4 theorem at the spec's own scenario: method
user.getProfile with a 5000 ms timeout. -/
theorem timeout_cleanup_and_late_response_spec_instance :
    (5000 : ℚ) ≠ 0 ∧
    (⟨"x", false, none⟩ : CallState).inTable = false ∧
    (timeoutDuration (some 5000) 5000 = 5000 ∧
      timeoutDuration none 5000 = 5000 ∧
      (callStep (initialCall "user.getProfile") .timerFires).inTable = false ∧
      (callStep (initialCall "user.getProfile") .timerFires).promise
          = some (.rejectedTimeout ("Request timeout: " ++ "user.getProfile")) ∧
      callStep ⟨"x", false, none⟩ (.responseArrives none none) = ⟨"x", false, none⟩) :=
  ⟨by decide, rfl,
    timeout_cleanup_and_late_response "user.getProfile" 5000 5000 none none
      ⟨"x", false, none⟩ (by decide) rfl⟩

/-- C2: the reconnection loop stalls after its first failed retry instead of
retrying reconnectionAttempts times. The close arms the first retry with the
attempt counter at 1, but when that retry's connect() fails, the re-entered
attemptReconnect returns at its reconnecting-flag guard, so no further timer
is armed, the attempt counter never advances past 1, the reconnecting flag
stays set, and the terminal socket:reconnect_failed event is never emitted:
exactly 1 retry is performed where the claim requires 3. -/
theorem reconnect_loop_stalls_after_first_retry :
    closeScenario.scheduledDelay.isSome = true ∧
    closeScenario.state.reconnectAttempts = 1 ∧
    closeScenario.state.connectionState = .RECONNECTING ∧
    closeScenarioRun.1 = 1 ∧
    closeScenarioRun.2.2.scheduledDelay = none ∧
    closeScenarioRun.2.2.state.reconnectAttempts = 1 ∧
    closeScenarioRun.2.2.state.reconnecting = true ∧
    LifecycleEvent.socketReconnectFailed ∉ closeScenario.events ++ closeScenarioRun.2.1 := by
  refine ⟨rfl, rfl, rfl, rfl, rfl, rfl, rfl, ?_⟩
  decide

/-- C3: the delay armed for reconnection attempt n is
min(reconnectionDelay times 1.5 to the n-1, reconnectionDelayMax); for a
nonnegative base delay the delays are non-decreasing in the attempt number;
once a delay equals reconnectionDelayMax every later delay still equals it;
and attemptReconnect, entered with the reconnecting flag clear and the
attempt counter below the maximum, arms its timer with exactly this delay
for the incremented attempt counter. -/
theorem backoff_delay_formula_monotone_capped (opts : WebSocketOptions) (n m : Nat)
    (s : ReconnectState)
    (hd : 0 ≤ opts.reconnectionDelay) (hnm : n ≤ m)
    (hs : s.reconnecting = false)
    (hlt : s.reconnectAttempts < s.options.reconnectionAttempts) :
    reconnectDelayFor opts n
        = min (opts.reconnectionDelay * (3 / 2 : ℚ) ^ (n - 1)) opts.reconnectionDelayMax ∧
    reconnectDelayFor opts n ≤ reconnectDelayFor opts m ∧
    (reconnectDelayFor opts n = opts.reconnectionDelayMax →
      reconnectDelayFor opts m = opts.reconnectionDelayMax) ∧
    (attemptReconnect s).scheduledDelay
        = some (reconnectDelayFor s.options (s.reconnectAttempts + 1)) := by
  have hpow : opts.reconnectionDelay * (3 / 2 : ℚ) ^ (n - 1)
      ≤ opts.reconnectionDelay * (3 / 2 : ℚ) ^ (m - 1) := by
    apply mul_le_mul_of_nonneg_left _ hd
    apply pow_le_pow_right₀ (by norm_num)
    omega
  refine ⟨rfl, ?_, ?_, ?_⟩
  · exact min_le_min hpow le_rfl
  · intro hcap
    have hle : opts.reconnectionDelayMax ≤ opts.reconnectionDelay * (3 / 2 : ℚ) ^ (n - 1) :=
      min_eq_right_iff.mp hcap
    exact min_eq_right_iff.mpr (le_trans hle hpow)
  · simp [attemptReconnect, hs, Nat.not_le.mpr hlt]

/-- Witness for the C3 theorem at the default options, attempts 2 and 5, on a
freshly closed connection. -/
theorem backoff_delay_formula_monotone_capped_instance :
    (0 : ℚ) ≤ DEFAULT_OPTIONS.reconnectionDelay ∧ 2 ≤ 5 ∧
    (⟨.CONNECTED, false, false, 0, DEFAULT_OPTIONS⟩ : ReconnectState).reconnecting = false ∧
    (⟨.CONNECTED, false, false, 0, DEFAULT_OPTIONS⟩ : ReconnectState).reconnectAttempts
        < (⟨.CONNECTED, false, false, 0,
            DEFAULT_OPTIONS⟩ : ReconnectState).options.reconnectionAttempts ∧
    (reconnectDelayFor DEFAULT_OPTIONS 2
        = min (DEFAULT_OPTIONS.reconnectionDelay * (3 / 2 : ℚ) ^ (2 - 1))
            DEFAULT_OPTIONS.reconnectionDelayMax ∧
      reconnectDelayFor DEFAULT_OPTIONS 2 ≤ reconnectDelayFor DEFAULT_OPTIONS 5 ∧
      (reconnectDelayFor DEFAULT_OPTIONS 2 = DEFAULT_OPTIONS.reconnectionDelayMax →
        reconnectDelayFor DEFAULT_OPTIONS 5 = DEFAULT_OPTIONS.reconnectionDelayMax) ∧
      (attemptReconnect ⟨.CONNECTED, false, false, 0, DEFAULT_OPTIONS⟩).scheduledDelay
          = some (reconnectDelayFor DEFAULT_OPTIONS (0 + 1))) :=
  ⟨by decide, by decide, rfl, by decide,
    backoff_delay_formula_monotone_capped DEFAULT_OPTIONS 2 5
      ⟨.CONNECTED, false, false, 0, DEFAULT_OPTIONS⟩ (by decide) (by decide) rfl (by decide)⟩

/-- C5 counterexample: with the transport not connected and autoReconnect
enabled but the connection state CONNECTING, sendRequest does not defer the
transmission through a connect() attempt; it rejects with the not-connected
error. The deferral requires the state to be exactly DISCONNECTED. -/
theorem send_not_deferred_while_connecting :
    sendRequestAction ⟨false, false, .CONNECTING, true⟩ ≠ .deferViaConnect ∧
    sendRequestAction ⟨false, false, .CONNECTING, true⟩ = .rejectNotConnected := by
  constructor <;> decide

/-- C5 (amended): when the transport is not connected, the transmission is
deferred through a connect() attempt exactly when the connection state is
DISCONNECTED and autoReconnect is enabled — after a successful connect the
retried send goes through, and a failed connect propagates as the rejection;
in every other non-connected situation, in particular whenever the state is
DISCONNECTING, the promise rejects with a not-connected error and no
implicit reconnect happens. -/
theorem send_when_not_connected (c : SendCtx)
    (h : ¬ (c.connected = true ∧ c.socketOpen = true)) :
    sendRequestAction c =
      (if c.connectionState = .DISCONNECTED ∧ c.autoReconnect = true
        then .deferViaConnect else .rejectNotConnected) ∧
    (c.connectionState = .DISCONNECTING → sendRequestAction c = .rejectNotConnected) ∧
    sendRequestOutcome c true =
      (if c.connectionState = .DISCONNECTED ∧ c.autoReconnect = true
        then .sent else .rejectedNotConnected) ∧
    sendRequestOutcome c false =
      (if c.connectionState = .DISCONNECTED ∧ c.autoReconnect = true
        then .rejectedConnectError else .rejectedNotConnected) := by
  obtain ⟨con, so, st, ar⟩ := c
  revert h
  cases con <;> cases so <;> cases st <;> cases ar <;> decide

/-- Witness for the amended C5 theorem: disconnected transport, state
DISCONNECTED, autoReconnect on — the send defers through connect(). -/
theorem send_when_not_connected_instance :
    ¬ ((⟨false, false, .DISCONNECTED, true⟩ : SendCtx).connected = true ∧
        (⟨false, false, .DISCONNECTED, true⟩ : SendCtx).socketOpen = true) ∧
    (sendRequestAction ⟨false, false, .DISCONNECTED, true⟩ =
      (if (⟨false, false, .DISCONNECTED, true⟩ : SendCtx).connectionState = .DISCONNECTED ∧
          (⟨false, false, .DISCONNECTED, true⟩ : SendCtx).autoReconnect = true
        then .deferViaConnect else .rejectNotConnected) ∧
      ((⟨false, false, .DISCONNECTED, true⟩ : SendCtx).connectionState = .DISCONNECTING →
        sendRequestAction ⟨false, false, .DISCONNECTED, true⟩ = .rejectNotConnected) ∧
      sendRequestOutcome ⟨false, false, .DISCONNECTED, true⟩ true =
        (if (⟨false, false, .DISCONNECTED, true⟩ : SendCtx).connectionState = .DISCONNECTED ∧
            (⟨false, false, .DISCONNECTED, true⟩ : SendCtx).autoReconnect = true
          then .sent else .rejectedNotConnected) ∧
      sendRequestOutcome ⟨false, false, .DISCONNECTED, true⟩ false =
        (if (⟨false, false, .DISCONNECTED, true⟩ : SendCtx).connectionState = .DISCONNECTED ∧
            (⟨false, false, .DISCONNECTED, true⟩ : SendCtx).autoReconnect = true
          then .rejectedConnectError else .rejectedNotConnected)) :=
  ⟨by decide, send_when_not_connected ⟨false, false, .DISCONNECTED, true⟩ (by decide)⟩

/-- C6: a close with code 1000, or any close observed while the state is
DISCONNECTING, never triggers a reconnection attempt, whatever the
autoReconnect setting: the state becomes DISCONNECTED, the connected flag is
cleared, exactly a socket:disconnect event is emitted, and no retry timer is
armed. -/
theorem clean_close_suppresses_reconnect (s : ReconnectState) (code : Nat)
    (h : code = 1000 ∨ s.connectionState = .DISCONNECTING) :
    handleClose s code =
      ⟨{ s with connectionState := .DISCONNECTED, connected := false },
        [.socketDisconnect code], none⟩ := by
  rcases h with h | h <;> simp [handleClose, h]

/-- Witness for the C6 theorem: a connected service with autoReconnect on
receives a close with code 1000. -/
theorem clean_close_suppresses_reconnect_instance :
    ((1000 : Nat) = 1000 ∨
      (⟨.CONNECTED, true, false, 0, DEFAULT_OPTIONS⟩ : ReconnectState).connectionState
        = .DISCONNECTING) ∧
    handleClose ⟨.CONNECTED, true, false, 0, DEFAULT_OPTIONS⟩ 1000 =
      ⟨{ (⟨.CONNECTED, true, false, 0, DEFAULT_OPTIONS⟩ : ReconnectState) with
          connectionState := .DISCONNECTED, connected := false },
        [.socketDisconnect 1000], none⟩ :=
  ⟨Or.inl rfl,
    clean_close_suppresses_reconnect ⟨.CONNECTED, true, false, 0, DEFAULT_OPTIONS⟩ 1000
      (Or.inl rfl)⟩

/-- C7: the claim (and the code's own comment) want the scheme added exactly
when the configured URL has none, but the comparison at service lines 57-58
tests the text before the first colon — which never contains a colon itself —
against the strings with a trailing colon, so it never matches and every
non-empty URL gets the page scheme prepended: a URL already carrying a ws:
or wss: scheme is mangled into a double-scheme URL. The token-appending half
of the claim does hold in the code. -/
theorem url_scheme_added_to_every_nonempty_url :
    normalizeUrl "ws:" "ws://example.com" = "ws://ws://example.com" ∧
    normalizeUrl "wss:" "wss://example.com" = "wss://wss://example.com" ∧
    normalizeUrl "ws:" "example.com:8080" = "ws://example.com:8080" ∧
    connectUrl "ws://host/path" "tok" = "ws://host/path?token=tok" ∧
    connectUrl "ws://host/path?x=1" "tok" = "ws://host/path?x=1&token=tok" := by
  refine ⟨?_, ?_, ?_, ?_, ?_⟩ <;> decide

theorem normalizeUrl_ne_empty (p url : String) (h : url ≠ "") :
    normalizeUrl p url ≠ "" := by
  unfold normalizeUrl
  split
  · intro hc
    have hlen := congrArg String.length hc
    rw [String.length_append, String.length_append] at hlen
    have h2 : ("//" : String).length = 2 := rfl
    have h0 : ("" : String).length = 0 := rfl
    rw [h2, h0] at hlen
    omega
  · exact h

/-- C8: constructing the service with autoReconnect on and a non-empty URL
immediately runs connect(), which moves the state from DISCONNECTED to
CONNECTING and opens a transport on the token-carrying URL; with
autoReconnect off, or with an empty URL, construction leaves the state
DISCONNECTED and opens no transport. -/
theorem constructor_auto_connects (pageHttps : Bool) (opts : WebSocketOptions) :
    (opts.autoReconnect = true → opts.url ≠ "" →
      (constructorRun false pageHttps opts).1 = .CONNECTING ∧
      (constructorRun false pageHttps opts).2.2
          = some (.opened (connectUrl
              (normalizeUrl (wsProtocolFor pageHttps) opts.url) opts.token))) ∧
    (opts.autoReconnect = false →
      (constructorRun false pageHttps opts).1 = .DISCONNECTED ∧
      (constructorRun false pageHttps opts).2.2 = none) ∧
    (opts.url = "" →
      (constructorRun false pageHttps opts).1 = .DISCONNECTED ∧
      (constructorRun false pageHttps opts).2.2 = none) := by
  refine ⟨?_, ?_, ?_⟩
  · intro ha hu
    have hne := normalizeUrl_ne_empty (wsProtocolFor pageHttps) opts.url hu
    simp [constructorRun, connectSync, ha, hne]
  · intro ha
    simp [constructorRun, ha]
  · intro hu
    simp [constructorRun, hu, normalizeUrl]

/-- Witness for the C8 theorem on a bare host name with the default options
(autoReconnect on): construction ends in CONNECTING with a transport opened
on the normalized URL. -/
theorem constructor_auto_connects_instance :
    ((exampleMergedOptions.autoReconnect = true → exampleMergedOptions.url ≠ "" →
      (constructorRun false false exampleMergedOptions).1 = .CONNECTING ∧
      (constructorRun false false exampleMergedOptions).2.2
          = some (.opened (connectUrl
              (normalizeUrl (wsProtocolFor false) exampleMergedOptions.url)
              exampleMergedOptions.token))) ∧
    (exampleMergedOptions.autoReconnect = false →
      (constructorRun false false exampleMergedOptions).1 = .DISCONNECTED ∧
      (constructorRun false false exampleMergedOptions).2.2 = none) ∧
    (exampleMergedOptions.url = "" →
      (constructorRun false false exampleMergedOptions).1 = .DISCONNECTED ∧
      (constructorRun false false exampleMergedOptions).2.2 = none)) ∧
    (constructorRun false false exampleMergedOptions).1 = .CONNECTING ∧
    (constructorRun false false exampleMergedOptions).2.1.url = "ws://example.com" ∧
    (constructorRun false false exampleMergedOptions).2.2 = some (.opened "ws://example.com") :=
  ⟨constructor_auto_connects false exampleMergedOptions, by decide, by decide, by decide⟩

theorem runHandlersCaught_eq_map (throws : Nat → Bool) (arg : HandlerArg) (hs : List Nat) :
    runHandlersCaught throws arg hs = hs.map (fun h => (h, arg, throws h)) := by
  induction hs with
  | nil => rfl
  | cons h t ih => simp [runHandlersCaught, ih]

/-- C9: for every emitted event, all handlers registered under the event's
own name run before any handler registered under the wildcard; named
handlers receive the event data directly while wildcard handlers receive the
wrapped type-and-data object; and since each handler runs inside its own
try/catch, every registered handler is invoked even when some of them
throw. -/
theorem emit_named_before_wildcard (throws : Nat → Bool) (named wild : List Nat)
    (ty : String) (d : Option Json) :
    emitEventRun throws named wild ty d =
      named.map (fun h => (h, HandlerArg.direct d, throws h)) ++
        wild.map (fun h => (h, HandlerArg.wrapped ty d, throws h)) ∧
    (emitEventRun throws named wild ty d).length = named.length + wild.length := by
  constructor
  · simp [emitEventRun, runHandlersCaught_eq_map]
  · simp [emitEventRun, runHandlersCaught_eq_map]

/-- C10: an inbound frame that has an id field but in which both result and
error are undefined is never routed to handleResponse: the pending-request
table is untouched and no pending call settles; when the frame carries a
method field it is dispatched as a notification with its params, and
otherwise it is dropped without effect; and a response whose id is null
settles no pending call either. -/
theorem frame_without_result_or_error_not_a_response (tbl : List RpcId) (f : InFrame)
    (_hid : f.id.isSome = true) (hr : f.result = none) (he : f.error = none) :
    routeFrame f ≠ .toResponse ∧
    (handleMessageStep tbl f).1 = tbl ∧
    (handleMessageStep tbl f).2.1 = none ∧
    (handleMessageStep tbl f).2.2 = notificationOf f ∧
    (f.method = none → handleMessageStep tbl f = (tbl, none, none)) ∧
    handleResponseTbl tbl none = (tbl, none) := by
  have hroute : routeFrame f = (match f.method with
      | some m => Routed.toNotification m
      | none => Routed.dropped) := by
    simp [routeFrame, hr, he]
  cases hm : f.method with
  | some m =>
    rw [hm] at hroute
    exact ⟨by simp [hroute], by simp [handleMessageStep, hroute],
      by simp [handleMessageStep, hroute],
      by simp [handleMessageStep, hroute, notificationOf, hm],
      by simp [hm], rfl⟩
  | none =>
    rw [hm] at hroute
    exact ⟨by simp [hroute], by simp [handleMessageStep, hroute],
      by simp [handleMessageStep, hroute],
      by simp [handleMessageStep, hroute, notificationOf, hm],
      by simp [handleMessageStep, hroute], rfl⟩

/-- Witness for the C10 theorem: the stray frame leaves the table alone,
settles nothing, and is dispatched as a room:chat_message notification. -/
theorem frame_without_result_or_error_not_a_response_instance :
    strayFrame.id.isSome = true ∧ strayFrame.result = none ∧ strayFrame.error = none ∧
    (routeFrame strayFrame ≠ .toResponse ∧
      (handleMessageStep [RpcId.str "3"] strayFrame).1 = [RpcId.str "3"] ∧
      (handleMessageStep [RpcId.str "3"] strayFrame).2.1 = none ∧
      (handleMessageStep [RpcId.str "3"] strayFrame).2.2 = notificationOf strayFrame ∧
      (strayFrame.method = none →
        handleMessageStep [RpcId.str "3"] strayFrame = ([RpcId.str "3"], none, none)) ∧
      handleResponseTbl [RpcId.str "3"] none = ([RpcId.str "3"], none)) :=
  ⟨rfl, rfl, rfl,
    frame_without_result_or_error_not_a_response [RpcId.str "3"] strayFrame rfl rfl rfl⟩

end ListenifyRPC
